import Mathlib

/-!
Shallow embedding of the resilience layer of the voiceflow repository:
error classification, backoff retry, fallback chaining, circuit breaking,
and WebSocket session management, translated from
`src/playAiErrorHandling.js`, `src/unnamed/part_001` (the
`usePlayAiWebSocket` hook) and `src/playAiConversation.js`.

JavaScript idioms are modelled as follows: a possibly-absent error object
is `Option JsError`; `message.includes(sub)` is substring containment on
character lists; the global connectivity flag `navigator.onLine` is an
explicit `Bool` argument; a fallible async operation is a sequence
`Nat → Except E A` giving the outcome of its i-th invocation; timers are
explicit events (a `Bool` pending flag plus a "fire" transition);
millisecond delays that involve the random jitter factor are rationals.
Every stateful API is a pure state-passing function that also returns how
many times the protected operation was invoked where a claim needs it.
-/

namespace VoiceFlow

/-- The closed set of error kinds, from `ErrorTypes` in
`src/playAiErrorHandling.js`. -/
inductive ErrorTypes where
  | authentication
  | network
  | server
  | rate_limit
  | validation
  | permission
  | resource_not_found
  | timeout
  | unknown
deriving DecidableEq, BEq, Repr

/-- A raw JS error as `classifyError` reads it: a `message` string (absent
message modelled as `""`, exactly what `error.message || ''` yields) and the
numeric `status` / `statusCode` fields (absent modelled as `0`, what
`error.status || error.statusCode || 0` yields for a missing field). -/
structure JsError where
  message : String
  status : Nat
  statusCode : Nat
deriving DecidableEq, Repr

/-- `needle` occurs as a contiguous sublist of `hay`. -/
def listContainsSub (needle : List Char) : (hay : List Char) → Bool
  | [] => needle.isEmpty
  | c :: t => needle.isPrefixOf (c :: t) || listContainsSub needle t

/-- JS `s.includes(sub)`: `sub` occurs as a contiguous substring of `s`. -/
def strIncludes (s sub : String) : Bool :=
  listContainsSub sub.toList s.toList

/-- The status coalescing `error.status || error.statusCode || 0`. -/
def effStatus (error : JsError) : Nat :=
  if error.status ≠ 0 then error.status else error.statusCode

/-- The ordered rule body of `classifyError` as a function of the message,
the coalesced status, and `navigator.onLine`
(`src/playAiErrorHandling.js` lines 30-90). -/
def classifyParts (message : String) (status : Nat) (onLine : Bool) : ErrorTypes :=
  if strIncludes message "network" || strIncludes message "connection" || !onLine then
    ErrorTypes.network
  else if status = 401 || strIncludes message "unauthorized" ||
      strIncludes message "authentication" || strIncludes message "invalid credentials" ||
      strIncludes message "api key" then
    ErrorTypes.authentication
  else if status = 429 || strIncludes message "rate limit" ||
      strIncludes message "too many requests" then
    ErrorTypes.rate_limit
  else if 500 ≤ status || strIncludes message "server error" ||
      strIncludes message "internal error" then
    ErrorTypes.server
  else if status = 400 || strIncludes message "validation" ||
      strIncludes message "invalid" then
    ErrorTypes.validation
  else if status = 403 || strIncludes message "permission" ||
      strIncludes message "forbidden" then
    ErrorTypes.permission
  else if status = 404 || strIncludes message "not found" then
    ErrorTypes.resource_not_found
  else if strIncludes message "timeout" || strIncludes message "timed out" then
    ErrorTypes.timeout
  else
    ErrorTypes.unknown

/-- `classifyError` from `src/playAiErrorHandling.js`: `null`/`undefined`
errors map to `unknown`; otherwise the ordered rules run on the message,
the coalesced status and the ambient `navigator.onLine` flag. -/
def classifyError (error : Option JsError) (onLine : Bool) : ErrorTypes :=
  match error with
  | none => ErrorTypes.unknown
  | some err => classifyParts err.message (effStatus err) onLine

/-- The default `shouldRetry` predicate of `retryWithBackoff`: retry only
when the classified kind is network, server, timeout or rate_limit. -/
def defaultShouldRetry (onLine : Bool) (error : JsError) : Bool :=
  let errorType := classifyError (some error) onLine
  [ErrorTypes.network, ErrorTypes.server, ErrorTypes.timeout,
    ErrorTypes.rate_limit].contains errorType

/-- The `while (true)` loop of `retryWithBackoff`
(`src/playAiErrorHandling.js` lines 112-133). `fn i` is the outcome of the
i-th invocation of the operation, `retries` the loop counter, and
`remaining = maxRetries - retries` the retry budget left (the loop throws
exactly when `retries >= maxRetries || !shouldRetry(error)`). Returns the
final outcome together with the number of invocations of the operation. -/
def retryLoop (fn : Nat → Except E A) (shouldRetry : E → Bool) :
    (remaining : Nat) → (retries : Nat) → Except E A × Nat
  | remaining, retries =>
    match fn retries with
    | Except.ok a => (Except.ok a, 1)
    | Except.error e =>
      match remaining with
      | 0 => (Except.error e, 1)
      | r + 1 =>
        if shouldRetry e then
          let rec_result := retryLoop fn shouldRetry r (retries + 1)
          (rec_result.1, rec_result.2 + 1)
        else
          (Except.error e, 1)

/-- `retryWithBackoff(fn, {maxRetries, ..., shouldRetry})`: run the retry
loop starting from `retries = 0`. -/
def retryWithBackoff (fn : Nat → Except E A) (shouldRetry : E → Bool)
    (maxRetries : Nat) : Except E A × Nat :=
  retryLoop fn shouldRetry maxRetries 0

/-- The delay formula of `retryWithBackoff`
(`src/playAiErrorHandling.js` lines 123-126):
`min(maxDelay, baseDelay * 2^retries * jitterFactor)`, where the code draws
`jitterFactor = 0.8 + Math.random() * 0.4`, i.e. uniformly from [0.8, 1.2];
here the drawn factor is an explicit rational argument. -/
def backoffDelay (baseDelay maxDelay : ℚ) (retries : Nat) (jitterFactor : ℚ) : ℚ :=
  min maxDelay (baseDelay * 2 ^ retries * jitterFactor)

/-- The failures `fallbackChain` can surface: the guard error
`new Error('No fallback functions provided')` on an empty list, the last
operation's own failure rethrown (`throw lastError`), and the unreachable
`new Error('All fallback options failed')` kept for fidelity to
`throw lastError || new Error(...)`. -/
inductive FallbackErr (E : Type) where
  | emptyChain
  | failed (e : E)
  | allFailed
deriving DecidableEq, Repr

/-- The `for (const fn of fns)` loop of `fallbackChain`
(`src/playAiErrorHandling.js` lines 146-157), threading `lastError`.
Returns the outcome together with how many operations were invoked. -/
def fallbackLoop : (fns : List (Except E A)) → (lastError : Option E) →
    Except (FallbackErr E) A × Nat
  | [], lastError =>
    match lastError with
    | some e => (Except.error (FallbackErr.failed e), 0)
    | none => (Except.error FallbackErr.allFailed, 0)
  | fn :: rest, _ =>
    match fn with
    | Except.ok a => (Except.ok a, 1)
    | Except.error e =>
      let rec_result := fallbackLoop rest (some e)
      (rec_result.1, rec_result.2 + 1)

/-- `fallbackChain(fns)` from `src/playAiErrorHandling.js` lines 141-158:
rejects an empty list up front, then tries the operations in order. Each
list element is the outcome that operation produces when invoked. -/
def fallbackChain (fns : List (Except E A)) : Except (FallbackErr E) A × Nat :=
  if fns.isEmpty then (Except.error FallbackErr.emptyChain, 0)
  else fallbackLoop fns none

/-- Circuit breaker states, from the `states` table of
`createCircuitBreaker`. `open_` carries a trailing underscore because
`open` is a Lean keyword. -/
inductive CBState where
  | closed
  | open_
  | halfOpen
deriving DecidableEq, Repr

/-- The mutable state of one `createCircuitBreaker` instance:
`state`, `failures`, `lastError`, the `failureThreshold` / `resetTimeout`
configuration, and whether a `resetTimer` is pending (the `setTimeout`
handle modelled as a flag). -/
structure Breaker (E : Type) where
  state : CBState
  failures : Nat
  failureThreshold : Nat
  resetTimeout : Nat
  resetPending : Bool
  lastError : Option E
deriving DecidableEq, Repr

/-- Errors surfaced by the breaker's `execute`: the guard
`new Error('Circuit breaker is open')`, or the protected operation's own
failure rethrown. -/
inductive CBErr (E : Type) where
  | circuitOpen
  | failure (e : E)
deriving DecidableEq, Repr

/-- `execute(fn)` of `createCircuitBreaker`
(`src/playAiErrorHandling.js` lines 396-434). `outcome` is what the
protected operation produces when invoked. Returns the call's result, the
breaker state after the call, and the number of invocations of the
operation (0 or 1). `scheduleReset` is modelled by setting `resetPending`. -/
def cbExecute (b : Breaker E) (outcome : Except E A) :
    Except (CBErr E) A × Breaker E × Nat :=
  if b.state = CBState.open_ then
    (Except.error CBErr.circuitOpen, b, 0)
  else
    match outcome with
    | Except.ok a =>
      if b.state = CBState.halfOpen then
        (Except.ok a, { b with state := CBState.closed, failures := 0 }, 1)
      else
        (Except.ok a, b, 1)
    | Except.error e =>
      let b1 := { b with lastError := some e }
      if b1.state = CBState.halfOpen then
        (Except.error (CBErr.failure e),
          { b1 with state := CBState.open_, resetPending := true }, 1)
      else
        let failures := b1.failures + 1
        if b1.failureThreshold ≤ failures then
          (Except.error (CBErr.failure e),
            { b1 with failures := failures, state := CBState.open_, resetPending := true }, 1)
        else
          (Except.error (CBErr.failure e), { b1 with failures := failures }, 1)

/-- The `resetTimer` callback (`src/playAiErrorHandling.js` lines 442-447):
when the timer fires, a breaker still `open_` moves to `halfOpen`. -/
def cbResetTimerFire (b : Breaker E) : Breaker E :=
  if b.state = CBState.open_ then
    { b with state := CBState.halfOpen, resetPending := false }
  else
    { b with resetPending := false }

/-- `reset()` of `createCircuitBreaker`: force `closed`, clear the failure
count and any pending timer. -/
def cbReset (b : Breaker E) : Breaker E :=
  { b with state := CBState.closed, failures := 0, resetPending := false }

/-- `getFailureCount()` of the breaker instance. -/
def getFailureCount (b : Breaker E) : Nat :=
  b.failures

/-- The options bag of `createResilientApiCall`
(`src/playAiErrorHandling.js` lines 233-238): `useRetry`, the retry
options (`maxRetries` and the retry predicate), and the fallback
operations' outcomes. `errorHandlers` is omitted here: `handleApiError`
only fires notification callbacks and the error is rethrown unchanged, so
it does not affect the returned value or the invocation counts. Note the
bag has no circuit-breaker member. -/
structure ResilientOptions (E A : Type) where
  useRetry : Bool
  maxRetries : Nat
  shouldRetry : E → Bool
  fallbacks : List (Except E A)

/-- `createResilientApiCall(apiFn, options)` applied to its arguments
(`src/playAiErrorHandling.js` lines 239-261): build `mainFn` (retry-wrapped
or plain), then run it through `fallbackChain([mainFn, ...fallbacks])` when
fallbacks are present, else directly. Returns the outcome and the number of
invocations of `apiFn` (the chain, when used, is nonempty and always runs
`mainFn` first, so `apiFn`'s invocation count is `mainFn`'s). -/
def createResilientApiCall (apiFn : Nat → Except E A)
    (options : ResilientOptions E A) : Except (FallbackErr E) A × Nat :=
  let mainFn : Except E A × Nat :=
    if options.useRetry then
      retryWithBackoff apiFn options.shouldRetry options.maxRetries
    else
      (apiFn 0, 1)
  if options.fallbacks.isEmpty then
    match mainFn.1 with
    | Except.ok a => (Except.ok a, mainFn.2)
    | Except.error e => (Except.error (FallbackErr.failed e), mainFn.2)
  else
    ((fallbackChain (mainFn.1 :: options.fallbacks)).1, mainFn.2)

/-- Definition following the spec's words, for comparison with
`createResilientApiCall`: "if a circuit breaker is configured, wrap
`operation` (and any retry-decorated version of it) so the breaker's
`execute` gates invocation", so that "a call made while the breaker is
Open does not invoke the operation". Returns the number of invocations of
the operation under that gating. -/
def specGatedCallInvocations (breaker : Breaker E) (apiFn : Nat → Except E A)
    (options : ResilientOptions E A) : Nat :=
  if breaker.state = CBState.open_ then 0
  else (createResilientApiCall apiFn options).2

/-- WebSocket ready states (the numeric constants `WebSocket.CONNECTING`,
`OPEN`, `CLOSING`, `CLOSED`). -/
inductive ReadyState where
  | connecting
  | open_
  | closing
  | closed
deriving DecidableEq, Repr

/-- A WebSocket object as the session code observes it. -/
structure Socket where
  readyState : ReadyState
deriving DecidableEq, Repr

/-- The `status` state of `usePlayAiWebSocket`
(`'disconnected' | 'connecting' | 'connected' | 'error'`). -/
inductive ConnStatus where
  | disconnected
  | connecting
  | connected
  | error
deriving DecidableEq, Repr

/-- The mutable state of one `usePlayAiWebSocket` hook instance
(`src/unnamed/part_001`): `status`, `socketRef`, `reconnectTimeoutRef`
(modelled as a pending flag), `reconnectAttemptsRef`, the `error` state,
and a count of `onError` notifications so callback delivery is visible. -/
structure Session where
  status : ConnStatus
  socket : Option Socket
  pendingReconnect : Bool
  reconnectAttempts : Nat
  lastError : Option String
  onErrorCalls : Nat
deriving DecidableEq, Repr

/-- `MAX_RECONNECT_ATTEMPTS` of `usePlayAiWebSocket`. -/
def MAX_RECONNECT_ATTEMPTS : Nat := 5

/-- `RECONNECT_DELAY` of `usePlayAiWebSocket` (milliseconds). -/
def RECONNECT_DELAY : ℚ := 2000

/-- `handleError(err)` of `usePlayAiWebSocket`: record the error, set
status `'error'`, and notify the `onError` callback. -/
def handleError (s : Session) (msg : String) : Session :=
  { s with lastError := some msg, status := ConnStatus.error, onErrorCalls := s.onErrorCalls + 1 }

/-- `connect()` of `usePlayAiWebSocket` (success path of the `try`): a
no-op when a socket is already `OPEN` or `CONNECTING`; otherwise set status
`'connecting'` and install a fresh socket in the `CONNECTING` state. -/
def wsConnect (s : Session) : Session :=
  let alreadyActive :=
    match s.socket with
    | some sk => sk.readyState == ReadyState.open_ || sk.readyState == ReadyState.connecting
    | none => false
  if alreadyActive then s
  else { s with status := ConnStatus.connecting, socket := some ⟨ReadyState.connecting⟩ }

/-- The `onopen` handler: status `'connected'` and
`reconnectAttemptsRef.current = 0`. -/
def wsOnOpen (s : Session) : Session :=
  { s with status := ConnStatus.connected, reconnectAttempts := 0 }

/-- The `onclose` handler of `usePlayAiWebSocket`
(`src/unnamed/part_001` lines 86-101): always set status `'disconnected'`;
on an unclean close with attempts below `MAX_RECONNECT_ATTEMPTS`, increment
the counter and schedule exactly one reconnect after `RECONNECT_DELAY`;
once the cap is reached, report max-reconnects via `handleError`. Returns
the new state and the scheduled delay, if any. -/
def wsOnClose (s : Session) (wasClean : Bool) : Session × Option ℚ :=
  let s1 := { s with status := ConnStatus.disconnected }
  if !wasClean ∧ s.reconnectAttempts < MAX_RECONNECT_ATTEMPTS then
    ({ s1 with reconnectAttempts := s.reconnectAttempts + 1, pendingReconnect := true },
      some RECONNECT_DELAY)
  else if MAX_RECONNECT_ATTEMPTS ≤ s.reconnectAttempts then
    (handleError s1 "Maximum reconnection attempts reached", none)
  else
    (s1, none)

/-- The scheduled reconnect timer firing: the `setTimeout` callback calls
`connect()`; a session with no pending timer has nothing to fire. -/
def wsReconnectFire (s : Session) : Session :=
  if s.pendingReconnect then wsConnect { s with pendingReconnect := false }
  else s

/-- `disconnect()` of `usePlayAiWebSocket` (`src/unnamed/part_001` lines
108-120): clear any pending reconnect timer; if a socket exists, close it,
drop the reference and set status `'disconnected'`. -/
def wsDisconnect (s : Session) : Session :=
  let s1 := { s with pendingReconnect := false }
  match s1.socket with
  | some _ => { s1 with socket := none, status := ConnStatus.disconnected }
  | none => s1

/-- `sendMessage(message)` of `usePlayAiWebSocket`
(`src/unnamed/part_001` lines 123-138): with no socket or a socket not
`OPEN`, call `handleError` and return `false`; otherwise attempt the send
(`sendOk` says whether `socket.send` itself succeeds) and return `true`,
or `false` via `handleError` when the send raised. -/
def wsSendMessage (s : Session) (sendOk : Bool) : Bool × Session :=
  let notOpen :=
    match s.socket with
    | some sk => sk.readyState != ReadyState.open_
    | none => true
  if notOpen then (false, handleError s "WebSocket is not connected")
  else if sendOk then (true, s)
  else (false, handleError s "Error sending message")

/-- The state `sendTextMessage` of `src/playAiConversation.js` touches:
the module-level `socket` plus a count of `onError` notifications. -/
structure ConvState where
  status : ConnStatus
  socket : Option Socket
  onErrorCalls : Nat
deriving DecidableEq, Repr

/-- `sendTextMessage(text)` of `src/playAiConversation.js` lines 147-168:
with no socket or a socket not `OPEN`, notify `onError` and return `false`
without touching `socket` or the status; otherwise send (`sendOk` says
whether `socket.send` succeeds) and return `true`, or notify and return
`false`. -/
def convSendTextMessage (c : ConvState) (sendOk : Bool) : Bool × ConvState :=
  let notOpen :=
    match c.socket with
    | some sk => sk.readyState != ReadyState.open_
    | none => true
  if notOpen then (false, { c with onErrorCalls := c.onErrorCalls + 1 })
  else if sendOk then (true, c)
  else (false, { c with onErrorCalls := c.onErrorCalls + 1 })

/-- The channel is absent or not in the `OPEN` ready state. -/
def socketNotOpen : Option Socket → Prop
  | some sk => sk.readyState ≠ ReadyState.open_
  | none => True

/-! ## Theorems -/

/-- C7 counterexample: `classifyError` is not a function of the
(status, message) pair alone — on the identical pair (status 0, empty
message) it returns `unknown` when `navigator.onLine` is true but
`network` when it is false. -/
theorem claim_C7_cex :
    classifyError (some ⟨"", 0, 0⟩) true = ErrorTypes.unknown ∧
    classifyError (some ⟨"", 0, 0⟩) false = ErrorTypes.network ∧
    ErrorTypes.unknown ≠ ErrorTypes.network := by
  refine ⟨rfl, rfl, ?_⟩
  decide

/-- C7 (amended): `classifyError` is a pure total function of the
failure's message, its coalesced status, and the `navigator.onLine`
connectivity flag: any two errors agreeing on message and coalesced status
classify identically under the same connectivity flag, always yielding
exactly one `ErrorTypes` value. -/
theorem claim_C7_amended (e1 e2 : JsError) (onLine : Bool)
    (hmsg : e1.message = e2.message) (hst : effStatus e1 = effStatus e2) :
    classifyError (some e1) onLine = classifyError (some e2) onLine := by
  simp only [classifyError]
  rw [hmsg, hst]

/-- C7 witness: two concrete errors differing only in the unused
`statusCode` field classify identically. -/
theorem claim_C7_witness :
    (JsError.mk "x" 401 0).message = (JsError.mk "x" 401 7).message ∧
    effStatus ⟨"x", 401, 0⟩ = effStatus ⟨"x", 401, 7⟩ ∧
    classifyError (some ⟨"x", 401, 0⟩) true = classifyError (some ⟨"x", 401, 7⟩) true := by
  refine ⟨rfl, by decide, ?_⟩
  exact claim_C7_amended ⟨"x", 401, 0⟩ ⟨"x", 401, 7⟩ true rfl (by decide)

/-- C9: under the default retry predicate, an operation whose failure
classifies as `validation` is invoked exactly once by `retryWithBackoff`
and its failure is propagated unchanged, for every retry budget. -/
theorem claim_C9_validation_no_retry (A : Type) (e : JsError) (onLine : Bool)
    (maxRetries : Nat) (h : classifyError (some e) onLine = ErrorTypes.validation) :
    retryWithBackoff (fun _ => (Except.error e : Except JsError A))
      (defaultShouldRetry onLine) maxRetries = (Except.error e, 1) := by
  have hsr : defaultShouldRetry onLine e = false := by
    simp only [defaultShouldRetry]
    rw [h]
    decide
  cases maxRetries with
  | zero => simp [retryWithBackoff, retryLoop]
  | succ r => simp [retryWithBackoff, retryLoop, hsr]

/-- C9 witness: the concrete failure (message "invalid input", status 400)
classifies as `validation` and is invoked exactly once under the default
predicate with `maxRetries = 3`. -/
theorem claim_C9_witness :
    classifyError (some ⟨"invalid input", 400, 0⟩) true = ErrorTypes.validation ∧
    retryWithBackoff (fun _ => (Except.error ⟨"invalid input", 400, 0⟩ : Except JsError Nat))
      (defaultShouldRetry true) 3 = (Except.error ⟨"invalid input", 400, 0⟩, 1) := by
  refine ⟨by decide, ?_⟩
  exact claim_C9_validation_no_retry Nat ⟨"invalid input", 400, 0⟩ true 3 (by decide)

/-- C5: with `maxRetries = 3`, an operation that always fails with
failures accepted by the retry predicate is invoked exactly 4 times
(1 initial + 3 retries), and the very error object raised by the final
invocation is propagated, not a wrapped or substituted one. -/
theorem claim_C5_retry_bound (E A : Type) (errs : Nat → E) (sr : E → Bool)
    (h : ∀ i, sr (errs i) = true) :
    retryWithBackoff (fun i => (Except.error (errs i) : Except E A)) sr 3 =
      (Except.error (errs 3), 4) := by
  simp [retryWithBackoff, retryLoop, h 0, h 1, h 2]

/-- C5 witness: a concrete always-failing retryable operation is invoked
4 times under `maxRetries = 3` and surfaces its own final error. -/
theorem claim_C5_witness :
    retryWithBackoff (fun i => (Except.error (String.append "boom " (toString i)) : Except String Nat))
      (fun _ => true) 3 = (Except.error (String.append "boom " (toString 3)), 4) := by
  exact claim_C5_retry_bound String Nat (fun i => String.append "boom " (toString i))
    (fun _ => true) (fun _ => rfl)

/-- A run of failing operations followed by a success: the loop invokes
each failing operation, then returns the success without looking further. -/
lemma fallbackLoop_first_ok (pre : List E) (a : A) (post : List (Except E A)) :
    ∀ lastError, fallbackLoop (pre.map Except.error ++ Except.ok a :: post) lastError =
      (Except.ok a, pre.length + 1) := by
  induction pre with
  | nil => intro lastError; simp [fallbackLoop]
  | cons e t ih =>
    intro lastError
    simp [List.map_cons, List.cons_append, fallbackLoop, List.append_eq, ih (some e),
      List.length_cons]

/-- A run where every operation fails: the loop invokes them all and
surfaces the last failure. -/
lemma fallbackLoop_all_fail (errs : List E) (e : E) :
    ∀ lastError, fallbackLoop ((errs.map Except.error ++ [Except.error e]) : List (Except E A))
      lastError = (Except.error (FallbackErr.failed e), errs.length + 1) := by
  induction errs with
  | nil => intro lastError; simp [fallbackLoop]
  | cons e1 t ih =>
    intro lastError
    simp [List.map_cons, List.cons_append, fallbackLoop, List.append_eq, ih (some e1),
      List.length_cons]

/-- C6: `fallbackChain` invokes the operations strictly in order,
returning the first success after invoking exactly the failing ones before
it (later operations are never invoked); when every operation fails it
surfaces the last operation's failure after invoking them all; and on the
empty sequence it fails with the empty-chain error invoking nothing. -/
theorem claim_C6_fallback_chain (E A : Type) :
    fallbackChain ([] : List (Except E A)) = (Except.error FallbackErr.emptyChain, 0) ∧
    (∀ (pre : List E) (a : A) (post : List (Except E A)),
      fallbackChain (pre.map Except.error ++ Except.ok a :: post) =
        (Except.ok a, pre.length + 1)) ∧
    (∀ (errs : List E) (e : E),
      fallbackChain ((errs.map Except.error ++ [Except.error e]) : List (Except E A)) =
        (Except.error (FallbackErr.failed e), errs.length + 1)) := by
  refine ⟨rfl, ?_, ?_⟩
  · intro pre a post
    have hne : (pre.map Except.error ++ Except.ok a :: post).isEmpty = false := by
      cases pre <;> simp
    simp [fallbackChain, hne, fallbackLoop_first_ok]
  · intro errs e
    have hne : ((errs.map Except.error ++ [Except.error e]) : List (Except E A)).isEmpty = false := by
      cases errs <;> simp
    simp [fallbackChain, hne, fallbackLoop_all_fail]

/-- C6 witness: on `[fails, succeeds, never-called]` the chain returns the
second operation's success after two invocations; the concrete empty and
all-fail cases behave as stated. -/
theorem claim_C6_witness :
    fallbackChain [Except.error "a", Except.ok (5 : Nat), Except.error "c"] =
      (Except.ok 5, 2) ∧
    fallbackChain ([] : List (Except String Nat)) = (Except.error FallbackErr.emptyChain, 0) ∧
    fallbackChain [(Except.error "a" : Except String Nat), Except.error "b"] =
      (Except.error (FallbackErr.failed "b"), 2) := by
  refine ⟨?_, (claim_C6_fallback_chain String Nat).1, ?_⟩
  · exact (claim_C6_fallback_chain String Nat).2.1 ["a"] 5 [Except.error "c"]
  · exact (claim_C6_fallback_chain String Nat).2.2 ["a"] "b"

/-- C1 counterexample: a success recorded while the breaker is `closed`
does not reset the failure counter — after one failure and then one
success in the `closed` state, `getFailureCount` returns 1, not 0. -/
theorem claim_C1_cex :
    getFailureCount (cbExecute (cbExecute
      (⟨CBState.closed, 0, 5, 30000, false, none⟩ : Breaker String)
      (Except.error "boom" : Except String Nat)).2.1 (Except.ok 7)).2.1 = 1 ∧
    (cbExecute (cbExecute
      (⟨CBState.closed, 0, 5, 30000, false, none⟩ : Breaker String)
      (Except.error "boom" : Except String Nat)).2.1 (Except.ok 7)).2.1.state =
      CBState.closed ∧
    (1 : Nat) ≠ 0 := by
  refine ⟨rfl, rfl, ?_⟩
  decide

/-- C1 (amended): a success recorded while the breaker is `closed` leaves
the breaker state, failure counter included, entirely unchanged; the
counter resets to 0 only on the `halfOpen` to `closed` success transition
and on an explicit `reset()`. -/
theorem claim_C1_failure_reset (E A : Type) (b : Breaker E) (a : A) :
    (b.state = CBState.closed → cbExecute b (Except.ok a) = (Except.ok a, b, 1)) ∧
    (b.state = CBState.halfOpen → cbExecute b (Except.ok a) =
      (Except.ok a, { b with state := CBState.closed, failures := 0 }, 1)) ∧
    getFailureCount (cbReset b) = 0 := by
  refine ⟨?_, ?_, rfl⟩
  · intro h
    simp [cbExecute, h]
  · intro h
    simp [cbExecute, h]

/-- C1 witness: a concrete `closed` breaker with two accumulated failures
is unchanged by a success, and a concrete `halfOpen` breaker moves to
`closed` with failure count 0 on a success. -/
theorem claim_C1_witness :
    cbExecute (⟨CBState.closed, 2, 5, 30000, false, none⟩ : Breaker String)
      (Except.ok (7 : Nat)) =
      (Except.ok 7, ⟨CBState.closed, 2, 5, 30000, false, none⟩, 1) ∧
    cbExecute (⟨CBState.halfOpen, 4, 5, 30000, false, none⟩ : Breaker String)
      (Except.ok (7 : Nat)) =
      (Except.ok 7, ⟨CBState.closed, 0, 5, 30000, false, none⟩, 1) := by
  constructor
  · exact (claim_C1_failure_reset String Nat ⟨CBState.closed, 2, 5, 30000, false, none⟩ 7).1 rfl
  · exact (claim_C1_failure_reset String Nat ⟨CBState.halfOpen, 4, 5, 30000, false, none⟩ 7).2.1 rfl

/-- C4: when the breaker is `open_`, `execute` fails immediately with the
circuit-open error, the protected operation is invoked zero times, and the
breaker state (state, failure count, everything) is returned unchanged. -/
theorem claim_C4_open_rejects (E A : Type) (b : Breaker E) (outcome : Except E A)
    (h : b.state = CBState.open_) :
    cbExecute b outcome = (Except.error CBErr.circuitOpen, b, 0) := by
  simp [cbExecute, h]

/-- C4 witness: a concrete `open_` breaker rejects a would-be-successful
operation without invoking it and without changing its state. -/
theorem claim_C4_witness :
    (⟨CBState.open_, 5, 5, 30000, true, none⟩ : Breaker String).state = CBState.open_ ∧
    cbExecute (⟨CBState.open_, 5, 5, 30000, true, none⟩ : Breaker String)
      (Except.ok (3 : Nat)) =
      (Except.error CBErr.circuitOpen, ⟨CBState.open_, 5, 5, 30000, true, none⟩, 0) := by
  exact ⟨rfl, claim_C4_open_rejects String Nat ⟨CBState.open_, 5, 5, 30000, true, none⟩
    (Except.ok 3) rfl⟩

/-- Every run of the retry loop invokes the operation at least once. -/
lemma retryLoop_invocations_pos (fn : Nat → Except E A) (sr : E → Bool)
    (remaining retries : Nat) : 1 ≤ (retryLoop fn sr remaining retries).2 := by
  cases hfn : fn retries with
  | ok a => simp [retryLoop, hfn]
  | error e =>
    cases remaining with
    | zero => simp [retryLoop, hfn]
    | succ r =>
      rw [retryLoop.eq_1]
      by_cases hsr : sr e <;> simp [hfn, hsr]

/-- C3 counterexample: the facade options bag of `createResilientApiCall`
has no circuit-breaker member and the facade never consults a breaker: on
a concrete call, the spec's gated behavior with an `open_` breaker would
invoke the operation zero times, but the source facade invokes it once. -/
theorem claim_C3_cex :
    specGatedCallInvocations (⟨CBState.open_, 5, 5, 30000, true, none⟩ : Breaker String)
      (fun _ => (Except.error "e0" : Except String Nat)) ⟨false, 3, fun _ => true, []⟩ = 0 ∧
    (createResilientApiCall (fun _ => (Except.error "e0" : Except String Nat))
      ⟨false, 3, fun _ => true, []⟩).2 = 1 ∧
    (1 : Nat) ≠ 0 := by
  refine ⟨rfl, rfl, ?_⟩
  decide

/-- C3 (amended): `createResilientApiCall` accepts only `useRetry`, retry
options, fallbacks and error handlers; there is no circuit-breaker gating,
so every call invokes the primary operation at least once regardless of
configuration. -/
theorem claim_C3_no_gating (E A : Type) (apiFn : Nat → Except E A)
    (options : ResilientOptions E A) :
    1 ≤ (createResilientApiCall apiFn options).2 := by
  have hm : 1 ≤ (if options.useRetry then
      retryWithBackoff apiFn options.shouldRetry options.maxRetries
    else (apiFn 0, 1)).2 := by
    by_cases hr : options.useRetry
    · simpa [hr, retryWithBackoff] using
        retryLoop_invocations_pos apiFn options.shouldRetry options.maxRetries 0
    · simp [hr]
  unfold createResilientApiCall
  by_cases hf : options.fallbacks.isEmpty
  · simp only [hf, if_true]
    cases hmain : (if options.useRetry then
        retryWithBackoff apiFn options.shouldRetry options.maxRetries
      else (apiFn 0, 1)).1 <;> simp_all
  · simp only [hf, if_false]
    exact hm

/-- C3 witness: a concrete call with retry disabled and no fallbacks
invokes the primary operation at least once. -/
theorem claim_C3_witness :
    1 ≤ (createResilientApiCall (fun _ => (Except.error "boom" : Except String Nat))
      ⟨true, 3, fun _ => true, []⟩).2 := by
  exact claim_C3_no_gating String Nat (fun _ => Except.error "boom") ⟨true, 3, fun _ => true, []⟩

/-- C2 counterexample: on an unclean close with `reconnectAttempts = 2`,
the session schedules its reconnect after the fixed 2000 ms
`RECONNECT_DELAY`, while the retry executor's backoff formula at attempt
index 2 (base 2000, cap 10000) yields at least 6400 for every jitter
factor in [0.8, 1.2] — the delays are not computed identically. -/
theorem claim_C2_cex :
    (wsOnClose ⟨ConnStatus.connected, some ⟨ReadyState.open_⟩, false, 2, none, 0⟩ false).2 =
      some 2000 ∧
    ∀ j : ℚ, 4/5 ≤ j → j ≤ 6/5 → backoffDelay 2000 10000 2 j ≠ 2000 := by
  refine ⟨rfl, ?_⟩
  intro j h1 _ heq
  have hlow : (6400 : ℚ) ≤ backoffDelay 2000 10000 2 j := by
    unfold backoffDelay
    refine le_min (by norm_num) (by nlinarith)
  rw [heq] at hlow
  norm_num at hlow

/-- C2 (amended): when the channel closes uncleanly with
`reconnectAttempts < maxReconnectAttempts`, the session schedules exactly
one reconnection attempt after the fixed `RECONNECT_DELAY` of 2000 ms —
not the retry executor's exponential backoff-with-jitter formula — and
increments `reconnectAttempts` on the transition. -/
theorem claim_C2_fixed_delay (s : Session)
    (h : s.reconnectAttempts < MAX_RECONNECT_ATTEMPTS) :
    wsOnClose s false =
      ({ s with status := ConnStatus.disconnected, reconnectAttempts := s.reconnectAttempts + 1, pendingReconnect := true },
        some RECONNECT_DELAY) := by
  simp [wsOnClose, h]

/-- C2 witness: a concrete connected session with 2 prior attempts moves
to 3 attempts with a single scheduled 2000 ms reconnect. -/
theorem claim_C2_witness :
    (2 : Nat) < MAX_RECONNECT_ATTEMPTS ∧
    wsOnClose ⟨ConnStatus.connected, some ⟨ReadyState.open_⟩, false, 2, none, 0⟩ false =
      (⟨ConnStatus.disconnected, some ⟨ReadyState.open_⟩, true, 3, none, 0⟩, some 2000) := by
  refine ⟨by decide, ?_⟩
  exact claim_C2_fixed_delay ⟨ConnStatus.connected, some ⟨ReadyState.open_⟩, false, 2, none, 0⟩
    (by decide)

/-- C8 counterexample: `disconnect()` does not reset the reconnect
attempts counter to 0 (a session with 3 attempts keeps 3), and a session
whose socket reference is already absent while in the `error` status keeps
that status rather than becoming `disconnected`. -/
theorem claim_C8_cex :
    (wsDisconnect ⟨ConnStatus.connected, some ⟨ReadyState.open_⟩, true, 3, none, 0⟩).reconnectAttempts = 3 ∧
    (3 : Nat) ≠ 0 ∧
    (wsDisconnect ⟨ConnStatus.error, none, false, 0, some "boom", 1⟩).status = ConnStatus.error ∧
    ConnStatus.error ≠ ConnStatus.disconnected := by
  refine ⟨rfl, by decide, rfl, by decide⟩

/-- C8 (amended): `disconnect()` always clears the pending reconnect
timer, so a scheduled reconnect can never fire afterward
(`wsReconnectFire` is a no-op on the resulting state); whenever a channel
is present it is closed and the status becomes `disconnected`; the call is
idempotent (a second `disconnect()` changes nothing); but the reconnect
attempts counter is left unchanged, not reset to 0 (it is reset by the
`onopen` handler instead). -/
theorem claim_C8_disconnect (s : Session) :
    (wsDisconnect s).pendingReconnect = false ∧
    (wsDisconnect s).reconnectAttempts = s.reconnectAttempts ∧
    (s.socket.isSome = true →
      (wsDisconnect s).status = ConnStatus.disconnected ∧ (wsDisconnect s).socket = none) ∧
    wsDisconnect (wsDisconnect s) = wsDisconnect s ∧
    wsReconnectFire (wsDisconnect s) = wsDisconnect s := by
  cases hs : s.socket <;> simp [wsDisconnect, wsReconnectFire, hs]

/-- C8 witness: on a concrete connected session with a pending reconnect
and 3 attempts, `disconnect()` clears the timer, yields status
`disconnected`, keeps the counter at 3, and a second call is a no-op. -/
theorem claim_C8_witness :
    (wsDisconnect ⟨ConnStatus.connected, some ⟨ReadyState.open_⟩, true, 3, none, 0⟩).pendingReconnect = false ∧
    (wsDisconnect ⟨ConnStatus.connected, some ⟨ReadyState.open_⟩, true, 3, none, 0⟩).status = ConnStatus.disconnected ∧
    (wsDisconnect ⟨ConnStatus.connected, some ⟨ReadyState.open_⟩, true, 3, none, 0⟩).reconnectAttempts = 3 ∧
    wsDisconnect (wsDisconnect ⟨ConnStatus.connected, some ⟨ReadyState.open_⟩, true, 3, none, 0⟩) =
      wsDisconnect ⟨ConnStatus.connected, some ⟨ReadyState.open_⟩, true, 3, none, 0⟩ := by
  refine ⟨(claim_C8_disconnect _).1,
    ((claim_C8_disconnect ⟨ConnStatus.connected, some ⟨ReadyState.open_⟩, true, 3, none, 0⟩).2.2.1 rfl).1,
    (claim_C8_disconnect _).2.1,
    (claim_C8_disconnect _).2.2.2.1⟩

/-- C10 counterexample: a failed `sendMessage` on a session whose socket
is not open returns `false` but does not leave the status unchanged — the
error handler sets it to `error` (here from `connected`). -/
theorem claim_C10_cex :
    (wsSendMessage ⟨ConnStatus.connected, some ⟨ReadyState.closed⟩, false, 0, none, 0⟩ true).1 = false ∧
    (wsSendMessage ⟨ConnStatus.connected, some ⟨ReadyState.closed⟩, false, 0, none, 0⟩ true).2.status =
      ConnStatus.error ∧
    ConnStatus.error ≠ ConnStatus.connected := by
  refine ⟨rfl, rfl, by decide⟩

/-- C10 (amended): when the channel is absent or not open, `sendMessage`
of the session hook returns `false` rather than throwing, notifies the
error callback (the notification count increments), and leaves the channel
unchanged — but its error handler sets the status to `error`; the
`sendTextMessage` of the conversation module returns `false` after
notifying and leaves its whole state except the notification count
unchanged. -/
theorem claim_C10_send_not_open :
    (∀ (s : Session) (sendOk : Bool), socketNotOpen s.socket →
      wsSendMessage s sendOk = (false, handleError s "WebSocket is not connected") ∧
      (wsSendMessage s sendOk).2.socket = s.socket ∧
      (wsSendMessage s sendOk).2.status = ConnStatus.error ∧
      (wsSendMessage s sendOk).2.onErrorCalls = s.onErrorCalls + 1) ∧
    (∀ (c : ConvState) (sendOk : Bool), socketNotOpen c.socket →
      convSendTextMessage c sendOk = (false, { c with onErrorCalls := c.onErrorCalls + 1 }) ∧
      (convSendTextMessage c sendOk).2.socket = c.socket ∧
      (convSendTextMessage c sendOk).2.status = c.status) := by
  constructor
  · intro s sendOk h
    cases hs : s.socket with
    | none => simp [wsSendMessage, handleError, hs]
    | some sk =>
      rw [hs] at h
      simp [wsSendMessage, handleError, hs, socketNotOpen] at h ⊢
      simp [h]
  · intro c sendOk h
    cases hs : c.socket with
    | none => simp [convSendTextMessage, hs]
    | some sk =>
      rw [hs] at h
      simp [convSendTextMessage, hs, socketNotOpen] at h ⊢
      simp [h]

/-- C10 witness: concrete sends on a closed socket return `false`, bump
the error-notification count, and keep the channel; the session hook's
status becomes `error` while the conversation module's is untouched. -/
theorem claim_C10_witness :
    socketNotOpen (some ⟨ReadyState.closed⟩) ∧
    wsSendMessage ⟨ConnStatus.connected, some ⟨ReadyState.closed⟩, false, 0, none, 0⟩ true =
      (false, handleError ⟨ConnStatus.connected, some ⟨ReadyState.closed⟩, false, 0, none, 0⟩
        "WebSocket is not connected") ∧
    convSendTextMessage ⟨ConnStatus.connected, some ⟨ReadyState.closed⟩, 0⟩ true =
      (false, ⟨ConnStatus.connected, some ⟨ReadyState.closed⟩, 1⟩) := by
  refine ⟨by simp [socketNotOpen], ?_, ?_⟩
  · exact (claim_C10_send_not_open.1
      ⟨ConnStatus.connected, some ⟨ReadyState.closed⟩, false, 0, none, 0⟩ true
      (by simp [socketNotOpen])).1
  · exact (claim_C10_send_not_open.2
      ⟨ConnStatus.connected, some ⟨ReadyState.closed⟩, 0⟩ true (by simp [socketNotOpen])).1

end VoiceFlow
